import Mathlib

/-!
Verification of the food-wastage dashboard (`app.py`): data model, the
dynamic filter builder for the browse view, the CRUD handlers, and the
report queries 9 and 10, shallowly embedded as pure Lean functions over
lists of rows.  SQL strings are modelled byte-for-byte where the claims
are about the strings; the relational semantics of the generated queries
are modelled as list operations (join = flatMap/filter, WHERE = filter,
ORDER BY = insertion sort, GROUP BY = dedup of keys + countP).
-/

namespace Food

/-- A row of the `Providers` table (`Provider_ID, Name, Type, Address, City, Contact`). -/
structure Provider where
  Provider_ID : Int
  Name : String
  «Type» : String
  Address : String
  City : String
  Contact : String
deriving DecidableEq

/-- A row of the `Food_Listings` table.  `Expiry_Date` is the string form
of a date (the app stores `str(f_exp)` and SQLite compares text). -/
structure FoodListing where
  Food_ID : Int
  Food_Name : String
  Quantity : Int
  Expiry_Date : String
  Provider_ID : Int
  Provider_Type : String
  Location : String
  Food_Type : String
  Meal_Type : String
deriving DecidableEq

/-- A row of the `Claims` table. -/
structure ClaimRow where
  Claim_ID : Int
  Food_ID : Int
  Receiver_ID : Int
  Status : String
deriving DecidableEq

/-- A row of the filtered browse result: the SELECT list of the
`Filtered Food Listings` query (`app.py` lines 78-86), in order:
`F.Food_ID, F.Food_Name, F.Quantity, F.Expiry_Date, F.Provider_ID,
P.Name AS Provider_Name, P.Type AS Provider_Type, P.City AS Location,
F.Food_Type, F.Meal_Type`. -/
structure BrowseRow where
  Food_ID : Int
  Food_Name : String
  Quantity : Int
  Expiry_Date : String
  Provider_ID : Int
  Provider_Name : String
  Provider_Type : String
  Location : String
  Food_Type : String
  Meal_Type : String
deriving DecidableEq

/-- The four sidebar multiselect values (`city_filter`, `ptype_filter`,
`ftype_filter`, `mtype_filter` in `app.py` lines 33-36), each a possibly
empty list of selected strings. -/
structure Filters where
  city_filter : List String
  ptype_filter : List String
  ftype_filter : List String
  mtype_filter : List String
deriving DecidableEq

/-- `','.join(['?']*n)`: the placeholder list of an `IN` clause. -/
def placeholders (n : Nat) : String :=
  String.intercalate "," (List.replicate n "?")

/-- The `where` list built by the four `if` blocks in `app.py` lines
39-53: one `column IN (?,...)` clause appended per non-empty facet, in
source order city, provider type, food type, meal type. -/
def whereList (flt : Filters) : List String :=
  (if flt.city_filter.isEmpty then [] else
    ["P.City IN (" ++ placeholders flt.city_filter.length ++ ")"]) ++
  (if flt.ptype_filter.isEmpty then [] else
    ["P.Type IN (" ++ placeholders flt.ptype_filter.length ++ ")"]) ++
  (if flt.ftype_filter.isEmpty then [] else
    ["F.Food_Type IN (" ++ placeholders flt.ftype_filter.length ++ ")"]) ++
  (if flt.mtype_filter.isEmpty then [] else
    ["F.Meal_Type IN (" ++ placeholders flt.mtype_filter.length ++ ")"])

/-- The `params` list built alongside `where` (`params += city_filter`
etc. in `app.py` lines 42-53). -/
def paramsList (flt : Filters) : List String :=
  (if flt.city_filter.isEmpty then [] else flt.city_filter) ++
  (if flt.ptype_filter.isEmpty then [] else flt.ptype_filter) ++
  (if flt.ftype_filter.isEmpty then [] else flt.ftype_filter) ++
  (if flt.mtype_filter.isEmpty then [] else flt.mtype_filter)

/-- `where_sql = ("WHERE " + " AND ".join(where)) if where else ""`
(`app.py` line 55). -/
def where_sql (flt : Filters) : String :=
  if (whereList flt).isEmpty then ""
  else "WHERE " ++ String.intercalate " AND " (whereList flt)

/-- Truth value of the generated WHERE fragment on one joined
(listing, provider) pair: each `col IN (?,...)` clause bound to its
parameter slice means membership of that column's value in the selected
facet values; absent clauses are true. -/
def wherePred (flt : Filters) (F : FoodListing) (P : Provider) : Bool :=
  (flt.city_filter.isEmpty || flt.city_filter.contains P.City) &&
  (flt.ptype_filter.isEmpty || flt.ptype_filter.contains P.«Type») &&
  (flt.ftype_filter.isEmpty || flt.ftype_filter.contains F.Food_Type) &&
  (flt.mtype_filter.isEmpty || flt.mtype_filter.contains F.Meal_Type)

/-- `FROM Food_Listings F JOIN Providers P ON F.Provider_ID = P.Provider_ID`:
every pair of a listing with a provider carrying its `Provider_ID`. -/
def joinFP (listings : List FoodListing) (providers : List Provider) :
    List (FoodListing × Provider) :=
  listings.flatMap fun F =>
    (providers.filter fun P => P.Provider_ID == F.Provider_ID).map fun P => (F, P)

/-- The SELECT list of the browse query (`P.City AS Location`,
`P.Type AS Provider_Type`, `P.Name AS Provider_Name`). -/
def selectRow (F : FoodListing) (P : Provider) : BrowseRow :=
  { Food_ID := F.Food_ID
    Food_Name := F.Food_Name
    Quantity := F.Quantity
    Expiry_Date := F.Expiry_Date
    Provider_ID := F.Provider_ID
    Provider_Name := P.Name
    Provider_Type := P.«Type»
    Location := P.City
    Food_Type := F.Food_Type
    Meal_Type := F.Meal_Type }

/-- `ORDER BY F.Expiry_Date` comparison. -/
def expiryLe (a b : BrowseRow) : Prop :=
  a.Expiry_Date ≤ b.Expiry_Date

instance : DecidableRel expiryLe := fun a b =>
  inferInstanceAs (Decidable (a.Expiry_Date ≤ b.Expiry_Date))

instance : IsTotal BrowseRow expiryLe :=
  ⟨fun a b => le_total a.Expiry_Date b.Expiry_Date⟩

instance : IsTrans BrowseRow expiryLe :=
  ⟨fun _ _ _ h h' => le_trans h h'⟩

/-- The filtered browse query (`app.py` lines 78-86): join, apply the
generated WHERE fragment, project the SELECT list, order by
`Expiry_Date` ascending. -/
def filteredBrowse (listings : List FoodListing) (providers : List Provider)
    (flt : Filters) : List BrowseRow :=
  List.insertionSort expiryLe
    (((joinFP listings providers).filter fun fp => wherePred flt fp.1 fp.2).map
      fun fp => selectRow fp.1 fp.2)

/-- Number of positional `?` placeholders in a SQL fragment. -/
def countQ (s : String) : Nat :=
  s.data.count '?'

/-- Outcome of a CRUD button handler: either the new table contents with
the `st.success` message, or the `st.error` validation message with no
write performed. -/
inductive CrudOutcome (α : Type) where
  | success (message : String) (table : α) : CrudOutcome α
  | validationError (message : String) : CrudOutcome α
deriving DecidableEq

/-- The "Add Provider" button handler (`app.py` lines 226-234):
`if p_name and p_type and p_city` (Python truthiness of strings is
non-emptiness) inserts one row and reports success, else reports the
validation error and performs no write.  `nextId` stands for the
`Provider_ID` the store assigns to the inserted row. -/
def addProvider (providers : List Provider) (nextId : Int)
    (p_name p_type p_addr p_city p_contact : String) :
    CrudOutcome (List Provider) :=
  if p_name ≠ "" ∧ p_type ≠ "" ∧ p_city ≠ "" then
    .success "Provider added."
      (providers ++ [{ Provider_ID := nextId, Name := p_name, «Type» := p_type,
                       Address := p_addr, City := p_city, Contact := p_contact }])
  else
    .validationError "Name, Type, and City are required."

/-- Python truthiness of the `provider_id` variable in `app.py` lines
241-247: `None` when the `Providers` table is empty, otherwise the
parsed integer id — and `if provider_id` is false for `0`. -/
def pyTruthy : Option Int → Bool
  | none => false
  | some n => n != 0

/-- `provider_type` resolution (`app.py` line 244): the `Type` of the
first `Providers` row whose `Provider_ID` equals the parsed id; `""`
when the table is empty (line 247). -/
def resolveProviderType (providers : List Provider) (provider_id : Option Int) : String :=
  match provider_id with
  | none => ""
  | some pid =>
    match providers.find? (fun P => P.Provider_ID == pid) with
    | some P => P.«Type»
    | none => ""

/-- The "Add Food" button handler (`app.py` lines 256-265):
`if provider_id and f_name and f_loc` inserts one `Food_Listings` row
with `Provider_Type` denormalized from the resolved provider's current
`Type`, else reports the validation error and performs no write.
`nextFoodId` stands for the `Food_ID` the store assigns. -/
def addFood (listings : List FoodListing) (providers : List Provider)
    (nextFoodId : Int) (provider_id : Option Int)
    (f_name : String) (f_qty : Int) (f_exp : String)
    (f_loc f_food_type f_meal : String) : CrudOutcome (List FoodListing) :=
  if pyTruthy provider_id ∧ f_name ≠ "" ∧ f_loc ≠ "" then
    .success "Food listing added."
      (listings ++ [{ Food_ID := nextFoodId, Food_Name := f_name, Quantity := f_qty,
                      Expiry_Date := f_exp, Provider_ID := provider_id.getD 0,
                      Provider_Type := resolveProviderType providers provider_id,
                      Location := f_loc, Food_Type := f_food_type, Meal_Type := f_meal }])
  else
    .validationError "Provider, Food Name, and Location are required."

/-- `UPDATE Food_Listings SET Quantity = ? WHERE Food_ID = ?`
(`app.py` line 277): every row whose `Food_ID` matches gets the new
quantity, every other row is untouched; zero matched rows is still
reported as success (line 278). -/
def updateFoodQuantity (listings : List FoodListing) (food_id new_qty : Int) :
    CrudOutcome (List FoodListing) :=
  .success "Quantity updated."
    (listings.map fun r =>
      if r.Food_ID == food_id then { r with Quantity := new_qty } else r)

/-- `DELETE FROM Food_Listings WHERE Food_ID = ?` (`app.py` line 289):
keeps exactly the rows whose `Food_ID` differs; zero matched rows is
still reported as success (line 290). -/
def deleteFood (listings : List FoodListing) (food_id : Int) :
    CrudOutcome (List FoodListing) :=
  .success "Food listing deleted."
    (listings.filter fun r => !(r.Food_ID == food_id))

/-- The joined, status-filtered row set of report 9 (`app.py` lines
154-162): `Claims C JOIN Food_Listings F ON C.Food_ID = F.Food_ID JOIN
Providers P ON F.Provider_ID = P.Provider_ID WHERE C.Status =
'Completed'` — the comparison is SQLite's default case-sensitive text
equality. -/
def q9rows (claims : List ClaimRow) (listings : List FoodListing)
    (providers : List Provider) : List (ClaimRow × FoodListing × Provider) :=
  ((claims.flatMap fun C =>
      (listings.filter fun F => F.Food_ID == C.Food_ID).flatMap fun F =>
        (providers.filter fun P => P.Provider_ID == F.Provider_ID).map fun P =>
          (C, F, P)).filter
    fun r => r.1.Status == "Completed")

/-- One output row of report 9: `P.Provider_ID, P.Name AS Provider_Name,
COUNT(*) AS Successful_Claims`. -/
structure Q9Row where
  Provider_ID : Int
  Provider_Name : String
  Successful_Claims : Nat
deriving DecidableEq

/-- `GROUP BY P.Provider_ID, P.Name` keys of report 9, with their
`COUNT(*)`. -/
def q9groups (claims : List ClaimRow) (listings : List FoodListing)
    (providers : List Provider) : List Q9Row :=
  ((q9rows claims listings providers).map fun r =>
      (r.2.2.Provider_ID, r.2.2.Name)).dedup.map
    fun k =>
      { Provider_ID := k.1, Provider_Name := k.2,
        Successful_Claims := (q9rows claims listings providers).countP
          fun r => (r.2.2.Provider_ID, r.2.2.Name) == k }

/-- `Successful_Claims` descending, the relation of report 9's
`ORDER BY Successful_Claims DESC`. -/
def q9ge (a b : Q9Row) : Prop :=
  b.Successful_Claims ≤ a.Successful_Claims

instance : DecidableRel q9ge := fun a b =>
  inferInstanceAs (Decidable (b.Successful_Claims ≤ a.Successful_Claims))

instance : IsTotal Q9Row q9ge :=
  ⟨fun a b => (le_total b.Successful_Claims a.Successful_Claims).imp id id⟩

instance : IsTrans Q9Row q9ge :=
  ⟨fun _ _ _ h h' => le_trans h' h⟩

/-- Report 9, "Provider with most completed claims": group, order by
count descending, `LIMIT 1`.  The result is empty (`none`) when no
joined claim has status `'Completed'`. -/
def q9 (claims : List ClaimRow) (listings : List FoodListing)
    (providers : List Provider) : Option Q9Row :=
  (List.insertionSort q9ge (q9groups claims listings providers)).head?

/-- SQLite `ROUND(100.0 * num / den, 2)` for non-negative arguments,
modelled over exact rationals as rounding `100 * num / den` to the
nearest hundredth (ties away from zero coincide with `round` on the
non-negative inputs that occur here). -/
def round2pct (num den : Nat) : ℚ :=
  (round ((10000 : ℚ) * num / den) : ℤ) / 100

/-- One output row of report 10: `Status, Percentage`. -/
structure Q10Row where
  Status : String
  Percentage : ℚ
deriving DecidableEq

/-- `Percentage` descending, the relation of report 10's
`ORDER BY Percentage DESC`. -/
def q10ge (a b : Q10Row) : Prop :=
  b.Percentage ≤ a.Percentage

instance : DecidableRel q10ge := fun a b =>
  inferInstanceAs (Decidable (b.Percentage ≤ a.Percentage))

instance : IsTotal Q10Row q10ge :=
  ⟨fun a b => (le_total b.Percentage a.Percentage).imp id id⟩

instance : IsTrans Q10Row q10ge :=
  ⟨fun _ _ _ h h' => le_trans h' h⟩

/-- Report 10, "Claim status distribution (%)" (`app.py` lines 164-169):
one row per distinct `Status` with
`ROUND(100.0 * COUNT(*) / (SELECT COUNT(*) FROM Claims), 2)`,
ordered by `Percentage` descending. -/
def q10 (claims : List ClaimRow) : List Q10Row :=
  List.insertionSort q10ge
    ((claims.map (fun c => c.Status)).dedup.map fun s =>
      { Status := s,
        Percentage := round2pct (claims.countP fun c => c.Status == s) claims.length })

/-!  ## Spec-side formulations used for refinement statements  -/

/-- The facet order fixed by the spec: city, provider type, food type,
meal type, with the column each facet filters on. -/
def facetPairs (flt : Filters) : List (String × List String) :=
  [("P.City", flt.city_filter), ("P.Type", flt.ptype_filter),
   ("F.Food_Type", flt.ftype_filter), ("F.Meal_Type", flt.mtype_filter)]

/-- Spec-side clause list: one `column IN (?,...,?)` clause per
non-empty facet, one placeholder per selected value, in facet order. -/
def specClauses (flt : Filters) : List String :=
  (facetPairs flt).filterMap fun cv =>
    if cv.2.isEmpty then none
    else some (cv.1 ++ " IN (" ++ placeholders cv.2.length ++ ")")

/-- Spec-side parameter list: the selected values of every facet,
concatenated in facet order (empty facets contribute nothing). -/
def specParams (flt : Filters) : List String :=
  ((facetPairs flt).map Prod.snd).flatten

/-- Spec-side browse result for the empty selection: the full
`Food_Listings ⋈ Providers` join ordered by `Expiry_Date` ascending. -/
def fullJoinSorted (listings : List FoodListing) (providers : List Provider) :
    List BrowseRow :=
  List.insertionSort expiryLe
    ((joinFP listings providers).map fun fp => selectRow fp.1 fp.2)

/-!  ## Helper lemmas  -/

theorem countQ_append (a b : String) : countQ (a ++ b) = countQ a + countQ b := by
  simp [countQ, String.data_append, List.count_append]

theorem countQ_go (as : List String) (acc s : String) :
    countQ (String.intercalate.go acc s as) =
      countQ acc + ((as.map countQ).sum + as.length * countQ s) := by
  induction as generalizing acc with
  | nil => simp [String.intercalate.go]
  | cons a as ih =>
    simp only [String.intercalate.go, ih, countQ_append, List.map_cons,
      List.sum_cons, List.length_cons]
    ring

theorem countQ_placeholders (n : Nat) : countQ (placeholders n) = n := by
  cases n with
  | zero => rfl
  | succ m =>
    have h : placeholders (m + 1) = String.intercalate.go "?" "," (List.replicate m "?") := by
      simp [placeholders, List.replicate_succ, String.intercalate]
    have h1 : countQ "?" = 1 := rfl
    have h2 : countQ "," = 0 := rfl
    rw [h, countQ_go, h1, h2]
    simp [List.map_replicate, List.sum_replicate, h1]
    omega

theorem countQ_intercalate_and (l : List String) :
    countQ (String.intercalate " AND " l) = (l.map countQ).sum := by
  cases l with
  | nil => rfl
  | cons a as =>
    have : countQ " AND " = 0 := rfl
    simp [String.intercalate, countQ_go, this]

theorem mem_joinFP (listings : List FoodListing) (providers : List Provider)
    (fp : FoodListing × Provider) :
    fp ∈ joinFP listings providers ↔
      fp.1 ∈ listings ∧ fp.2 ∈ providers ∧ fp.2.Provider_ID = fp.1.Provider_ID := by
  obtain ⟨F, P⟩ := fp
  simp only [joinFP, List.mem_flatMap, List.mem_map, List.mem_filter]
  constructor
  · rintro ⟨F', hF', P', ⟨hP', hid⟩, heq⟩
    obtain ⟨rfl, rfl⟩ := Prod.mk.injEq .. ▸ heq
    exact ⟨hF', hP', by simpa using hid⟩
  · rintro ⟨hF, hP, hid⟩
    exact ⟨F, hF, P, ⟨hP, by simpa using hid⟩, rfl⟩

theorem mem_filteredBrowse (listings : List FoodListing) (providers : List Provider)
    (flt : Filters) (row : BrowseRow) :
    row ∈ filteredBrowse listings providers flt ↔
      ∃ fp ∈ joinFP listings providers,
        wherePred flt fp.1 fp.2 = true ∧ row = selectRow fp.1 fp.2 := by
  unfold filteredBrowse
  rw [(List.perm_insertionSort expiryLe _).mem_iff]
  simp only [List.mem_map, List.mem_filter]
  constructor
  · rintro ⟨fp, ⟨hmem, hpred⟩, rfl⟩
    exact ⟨fp, hmem, hpred, rfl⟩
  · rintro ⟨fp, hmem, hpred, rfl⟩
    exact ⟨fp, ⟨hmem, hpred⟩, rfl⟩

/-- Selected facet values listed per facet in the fixed order, empty
facets omitted: the shape the parameters must follow. -/
def selectedFacets (flt : Filters) : List (List String) :=
  ((facetPairs flt).map Prod.snd).filter fun v => !v.isEmpty

theorem whereList_eq_specClauses (flt : Filters) :
    whereList flt = specClauses flt := by
  obtain ⟨cf, pf, ff, mf⟩ := flt
  rcases cf with _ | ⟨c, cf⟩ <;> rcases pf with _ | ⟨p, pf⟩ <;>
    rcases ff with _ | ⟨f, ff⟩ <;> rcases mf with _ | ⟨m, mf⟩ <;>
    simp [whereList, specClauses, facetPairs]

theorem countQ_in_clause (pre : String) (n : Nat) (h : countQ pre = 0) :
    countQ (pre ++ placeholders n ++ ")") = n := by
  have hr : countQ ")" = 0 := rfl
  rw [countQ_append, countQ_append, countQ_placeholders, h, hr]
  omega

theorem whereList_countQ (flt : Filters) :
    (whereList flt).map countQ = (selectedFacets flt).map List.length := by
  have k1 : ∀ n, countQ ("P.City IN (" ++ placeholders n ++ ")") = n :=
    fun n => countQ_in_clause _ n rfl
  have k2 : ∀ n, countQ ("P.Type IN (" ++ placeholders n ++ ")") = n :=
    fun n => countQ_in_clause _ n rfl
  have k3 : ∀ n, countQ ("F.Food_Type IN (" ++ placeholders n ++ ")") = n :=
    fun n => countQ_in_clause _ n rfl
  have k4 : ∀ n, countQ ("F.Meal_Type IN (" ++ placeholders n ++ ")") = n :=
    fun n => countQ_in_clause _ n rfl
  obtain ⟨cf, pf, ff, mf⟩ := flt
  rcases cf with _ | ⟨c, cf⟩ <;> rcases pf with _ | ⟨p, pf⟩ <;>
    rcases ff with _ | ⟨f, ff⟩ <;> rcases mf with _ | ⟨m, mf⟩ <;>
    simp [whereList, selectedFacets, facetPairs, k1, k2, k3, k4]

theorem paramsList_eq_specParams (flt : Filters) :
    paramsList flt = specParams flt := by
  obtain ⟨cf, pf, ff, mf⟩ := flt
  rcases cf with _ | ⟨c, cf⟩ <;> rcases pf with _ | ⟨p, pf⟩ <;>
    rcases ff with _ | ⟨f, ff⟩ <;> rcases mf with _ | ⟨m, mf⟩ <;>
    simp [paramsList, specParams, facetPairs]

theorem paramsList_eq_flatten_selected (flt : Filters) :
    paramsList flt = (selectedFacets flt).flatten := by
  obtain ⟨cf, pf, ff, mf⟩ := flt
  rcases cf with _ | ⟨c, cf⟩ <;> rcases pf with _ | ⟨p, pf⟩ <;>
    rcases ff with _ | ⟨f, ff⟩ <;> rcases mf with _ | ⟨m, mf⟩ <;>
    simp [paramsList, selectedFacets, facetPairs]

theorem countQ_where_sql (flt : Filters) :
    countQ (where_sql flt) = (paramsList flt).length := by
  rw [where_sql]
  by_cases hw : (whereList flt).isEmpty
  · rw [if_pos hw]
    rw [List.isEmpty_iff] at hw
    have hsel : selectedFacets flt = [] := by
      have h0 : (whereList flt).map countQ = [] := by rw [hw]; rfl
      rw [whereList_countQ] at h0
      exact List.map_eq_nil_iff.mp h0
    rw [paramsList_eq_flatten_selected, hsel]
    rfl
  · rw [if_neg hw, countQ_append, countQ_intercalate_and]
    have hwq : countQ "WHERE " = 0 := rfl
    rw [hwq, whereList_countQ, paramsList_eq_flatten_selected, List.length_flatten]
    simp

/-!  ## C1  -/

/-- C1: the Filter Builder emits, per non-empty facet and in the fixed
order city, provider type, food type, meal type, one `column IN
(?,...,?)` clause, AND-joins them after a single `WHERE ` (empty
fragment when nothing is selected), the parameter list is the
concatenation of the selected facet values in the same order with the
total placeholder count equal to the parameter count (per-clause counts
matching per-facet selection sizes), and every row of the filtered
browse result satisfies membership in all selected facets
simultaneously. -/
theorem c1_filter_builder_conjunctive (flt : Filters)
    (listings : List FoodListing) (providers : List Provider) :
    whereList flt = specClauses flt ∧
    where_sql flt = (if (specClauses flt).isEmpty then ""
      else "WHERE " ++ String.intercalate " AND " (specClauses flt)) ∧
    (whereList flt).map countQ = (selectedFacets flt).map List.length ∧
    paramsList flt = specParams flt ∧
    paramsList flt = (selectedFacets flt).flatten ∧
    countQ (where_sql flt) = (paramsList flt).length ∧
    ∀ row ∈ filteredBrowse listings providers flt,
      (flt.city_filter ≠ [] → row.Location ∈ flt.city_filter) ∧
      (flt.ptype_filter ≠ [] → row.Provider_Type ∈ flt.ptype_filter) ∧
      (flt.ftype_filter ≠ [] → row.Food_Type ∈ flt.ftype_filter) ∧
      (flt.mtype_filter ≠ [] → row.Meal_Type ∈ flt.mtype_filter) := by
  refine ⟨whereList_eq_specClauses flt, ?_, whereList_countQ flt,
    paramsList_eq_specParams flt, paramsList_eq_flatten_selected flt,
    countQ_where_sql flt, ?_⟩
  · rw [where_sql, whereList_eq_specClauses]
  · intro row hrow
    rw [mem_filteredBrowse] at hrow
    obtain ⟨fp, _, hpred, rfl⟩ := hrow
    rw [wherePred] at hpred
    simp only [Bool.and_eq_true, Bool.or_eq_true, List.isEmpty_iff] at hpred
    obtain ⟨⟨⟨h1, h2⟩, h3⟩, h4⟩ := hpred
    refine ⟨fun hne => ?_, fun hne => ?_, fun hne => ?_, fun hne => ?_⟩
    · rcases h1 with h | h
      · exact absurd h hne
      · exact List.mem_of_elem_eq_true h
    · rcases h2 with h | h
      · exact absurd h hne
      · exact List.mem_of_elem_eq_true h
    · rcases h3 with h | h
      · exact absurd h hne
      · exact List.mem_of_elem_eq_true h
    · rcases h4 with h | h
      · exact absurd h hne
      · exact List.mem_of_elem_eq_true h

/-!  ## C2  -/

/-- C2: with no facet selected, the filtered browse result is exactly
the full `Food_Listings ⋈ Providers` join (every listing paired with its
provider, projected to the ten browse columns) ordered by `Expiry_Date`
ascending; the generated WHERE fragment is empty. -/
theorem c2_empty_filter_full_join (listings : List FoodListing)
    (providers : List Provider) :
    filteredBrowse listings providers ⟨[], [], [], []⟩ = fullJoinSorted listings providers ∧
    where_sql ⟨[], [], [], []⟩ = "" ∧
    List.Sorted expiryLe (filteredBrowse listings providers ⟨[], [], [], []⟩) ∧
    (filteredBrowse listings providers ⟨[], [], [], []⟩).Perm
      ((joinFP listings providers).map fun fp => selectRow fp.1 fp.2) := by
  have hfilter : ((joinFP listings providers).filter
      fun fp => wherePred ⟨[], [], [], []⟩ fp.1 fp.2) = joinFP listings providers :=
    List.filter_eq_self.mpr fun a _ => rfl
  refine ⟨?_, rfl, ?_, ?_⟩
  · rw [filteredBrowse, hfilter, fullJoinSorted]
  · rw [filteredBrowse]
    exact List.sorted_insertionSort _ _
  · rw [filteredBrowse, hfilter]
    exact List.perm_insertionSort _ _

/-!  ## C3  -/

/-- C3: updating the quantity of `food_id` to `new_qty` succeeds,
rewrites `Quantity` (only) on exactly the rows carrying that `Food_ID`
and leaves every other row untouched; a subsequent read of an existing
`food_id` sees `new_qty`; a non-existent `food_id` is a silent no-op
still reported as success. -/
theorem c3_update_quantity (listings : List FoodListing) (food_id new_qty : Int) :
    ∃ t, updateFoodQuantity listings food_id new_qty = .success "Quantity updated." t ∧
      List.Forall₂ (fun r r' =>
        if r.Food_ID = food_id then r' = { r with Quantity := new_qty } else r' = r)
        listings t ∧
      ((∃ r ∈ listings, r.Food_ID = food_id) →
        ∃ r' ∈ t, r'.Food_ID = food_id ∧ r'.Quantity = new_qty) ∧
      ((∀ r ∈ listings, r.Food_ID ≠ food_id) → t = listings) := by
  refine ⟨_, rfl, ?_, ?_, ?_⟩
  · rw [List.forall₂_map_right_iff, List.forall₂_same]
    intro r _
    by_cases h : r.Food_ID = food_id
    · simp [h]
    · have hb : (r.Food_ID == food_id) = false := beq_eq_false_iff_ne.mpr h
      simp [h, hb]
  · rintro ⟨r, hr, hid⟩
    refine ⟨{ r with Quantity := new_qty }, ?_, hid, rfl⟩
    rw [List.mem_map]
    exact ⟨r, hr, by simp [hid]⟩
  · intro hnone
    conv_rhs => rw [← List.map_id listings]
    apply List.map_congr_left
    intro r hr
    simp [show (r.Food_ID == food_id) = false from beq_eq_false_iff_ne.mpr (hnone r hr)]

/-!  ## C4  -/

/-- C4: deleting `food_id` succeeds, keeps exactly the rows with a
different `Food_ID` (each unchanged and in original order), removes
exactly one row when exactly one row carries that id, and is a silent
success no-op when no row does. -/
theorem c4_delete_food (listings : List FoodListing) (food_id : Int) :
    ∃ t, deleteFood listings food_id = .success "Food listing deleted." t ∧
      (∀ r ∈ t, r.Food_ID ≠ food_id ∧ r ∈ listings) ∧
      t.Sublist listings ∧
      (listings.countP (fun r => r.Food_ID == food_id) = 1 →
        t.length + 1 = listings.length) ∧
      ((∀ r ∈ listings, r.Food_ID ≠ food_id) → t = listings) := by
  refine ⟨_, rfl, ?_, List.filter_sublist _, ?_, ?_⟩
  · intro r hr
    rw [List.mem_filter] at hr
    obtain ⟨hmem, hne⟩ := hr
    refine ⟨?_, hmem⟩
    intro h
    rw [h] at hne
    simp at hne
  · intro hone
    have hsplit := List.length_eq_countP_add_countP (fun r => r.Food_ID == food_id) listings
    have hfilter : (listings.filter fun r => !(r.Food_ID == food_id)).length
        = listings.countP fun r => !(r.Food_ID == food_id) :=
      (List.countP_eq_length_filter _ _).symm
    have hcongr : (listings.countP fun a => decide ¬((a.Food_ID == food_id) = true))
        = listings.countP fun r => !(r.Food_ID == food_id) := by
      apply List.countP_congr
      intro r _
      cases h : (r.Food_ID == food_id) <;> simp [h]
    rw [hfilter]
    omega
  · intro hnone
    apply List.filter_eq_self.mpr
    intro r hr
    simp [beq_eq_false_iff_ne.mpr (hnone r hr)]

/-!  ## C6  -/

/-- C6: Add Provider validates that Name, Type and City are non-empty:
any empty required field yields the validation error and no write; all
three non-empty yields success with exactly one appended row carrying
the given fields (Address and Contact may be empty). -/
theorem c6_add_provider (providers : List Provider) (nextId : Int)
    (p_name p_type p_addr p_city p_contact : String) :
    (p_name = "" ∨ p_type = "" ∨ p_city = "" →
      addProvider providers nextId p_name p_type p_addr p_city p_contact
        = .validationError "Name, Type, and City are required.") ∧
    (p_name ≠ "" → p_type ≠ "" → p_city ≠ "" →
      ∃ r, addProvider providers nextId p_name p_type p_addr p_city p_contact
          = .success "Provider added." (providers ++ [r]) ∧
        (providers ++ [r]).length = providers.length + 1 ∧
        r.Name = p_name ∧ r.«Type» = p_type ∧ r.City = p_city ∧
        r.Address = p_addr ∧ r.Contact = p_contact) := by
  constructor
  · intro hmiss
    rw [addProvider, if_neg]
    rintro ⟨h1, h2, h3⟩
    rcases hmiss with h | h | h
    · exact h1 h
    · exact h2 h
    · exact h3 h
  · intro h1 h2 h3
    refine ⟨{ Provider_ID := nextId, Name := p_name, «Type» := p_type,
              Address := p_addr, City := p_city, Contact := p_contact },
      ?_, by simp, rfl, rfl, rfl, rfl, rfl⟩
    rw [addProvider, if_pos ⟨h1, h2, h3⟩]

/-!  ## C5  -/

/-- A provider whose store-assigned identity is `0`: a legal row of the
external `Providers` table. -/
def zeroIdProvider : Provider :=
  { Provider_ID := 0, Name := "Zed Foods", «Type» := "Grocery Store",
    Address := "1 Main St", City := "CityZ", Contact := "555-0100" }

/-- C5 counterexample: the selected provider exists (`Provider_ID = 0`),
`Food_Name` and `Location` are non-empty, yet `if provider_id and ...`
is false for the integer `0`, so the handler reports the validation
error and inserts nothing — the claim's promised `+1` insert does not
happen. -/
theorem c5_add_food_counterexample :
    (∃ P ∈ [zeroIdProvider], P.Provider_ID = (0 : Int)) ∧
    "Bread" ≠ "" ∧ "CityZ" ≠ "" ∧
    addFood [] [zeroIdProvider] 1 (some 0) "Bread" 3 "2026-01-01" "CityZ"
        "Vegetarian" "Lunch"
      = .validationError "Provider, Food Name, and Location are required." := by
  refine ⟨⟨zeroIdProvider, by decide, rfl⟩, by decide, by decide, by decide⟩

/-- C5 amended: with a selected provider that resolves to an existing
provider's identity **and that identity is non-zero** (Python `if
provider_id` is false on `0`), and non-empty `Food_Name` and `Location`,
Add Food Listing appends exactly one row whose `Provider_Type` is the
resolved provider's current `Type`; if the provider is unselected or its id is
`0`, or `Food_Name` or `Location` is empty, it reports a validation
error and performs no write. -/
theorem c5_add_food_amended :
    (∀ (listings : List FoodListing) (providers : List Provider)
        (nextFoodId pid : Int) (P : Provider)
        (f_name f_exp f_loc fty fme : String) (f_qty : Int),
      providers.find? (fun Q => Q.Provider_ID == pid) = some P →
      pid ≠ 0 → f_name ≠ "" → f_loc ≠ "" →
      P ∈ providers ∧ P.Provider_ID = pid ∧
      ∃ r, addFood listings providers nextFoodId (some pid) f_name f_qty f_exp
            f_loc fty fme = .success "Food listing added." (listings ++ [r]) ∧
        (listings ++ [r]).length = listings.length + 1 ∧
        r.Provider_Type = P.«Type» ∧ r.Provider_ID = pid ∧
        r.Food_Name = f_name ∧ r.Location = f_loc ∧ r.Quantity = f_qty) ∧
    (∀ (listings : List FoodListing) (providers : List Provider)
        (nextFoodId : Int) (provider_id : Option Int)
        (f_name f_exp f_loc fty fme : String) (f_qty : Int),
      provider_id = none ∨ provider_id = some 0 ∨ f_name = "" ∨ f_loc = "" →
      addFood listings providers nextFoodId provider_id f_name f_qty f_exp
          f_loc fty fme
        = .validationError "Provider, Food Name, and Location are required.") := by
  constructor
  · intro listings providers nextFoodId pid P f_name f_exp f_loc fty fme f_qty
      hfind hpid hname hloc
    have hmem : P ∈ providers := List.mem_of_find?_eq_some hfind
    have hid : P.Provider_ID = pid := by
      have := List.find?_some hfind
      exact beq_iff_eq.mp this
    have htruthy : pyTruthy (some pid) = true := by
      simp [pyTruthy]
      exact hpid
    have hres : resolveProviderType providers (some pid) = P.«Type» := by
      rw [resolveProviderType, hfind]
    refine ⟨hmem, hid,
      { Food_ID := nextFoodId, Food_Name := f_name, Quantity := f_qty,
        Expiry_Date := f_exp, Provider_ID := pid,
        Provider_Type := resolveProviderType providers (some pid),
        Location := f_loc, Food_Type := fty, Meal_Type := fme },
      ?_, by simp, by rw [hres], rfl, rfl, rfl, rfl⟩
    rw [addFood, if_pos ⟨htruthy, hname, hloc⟩]
    rfl
  · intro listings providers nextFoodId provider_id f_name f_exp f_loc fty fme
      f_qty hmiss
    rw [addFood, if_neg]
    rintro ⟨htruthy, hname, hloc⟩
    rcases hmiss with h | h | h | h
    · rw [h] at htruthy
      exact Bool.false_ne_true htruthy
    · rw [h] at htruthy
      exact Bool.false_ne_true htruthy
    · exact hname h
    · exact hloc h

/-!  ## C7  -/

/-- C7: every operation preserves non-negativity of `Quantity`: Add Food
with the widget minimum `1 ≤ f_qty` appends only non-negative rows,
Update with the widget minimum `0 ≤ new_qty` writes only non-negative
quantities, Delete keeps remaining rows' quantities unchanged, and the
browse report only reads quantities already in the table. -/
theorem c7_quantity_invariant (listings : List FoodListing)
    (hinv : ∀ r ∈ listings, 0 ≤ r.Quantity) :
    (∀ (providers : List Provider) (nextFoodId : Int) (provider_id : Option Int)
        (f_name f_exp f_loc fty fme : String) (f_qty : Int)
        (t : List FoodListing),
      1 ≤ f_qty →
      addFood listings providers nextFoodId provider_id f_name f_qty f_exp
          f_loc fty fme = .success "Food listing added." t →
      ∀ r ∈ t, 0 ≤ r.Quantity) ∧
    (∀ (food_id new_qty : Int) (t : List FoodListing),
      0 ≤ new_qty →
      updateFoodQuantity listings food_id new_qty = .success "Quantity updated." t →
      ∀ r ∈ t, 0 ≤ r.Quantity) ∧
    (∀ (food_id : Int) (t : List FoodListing),
      deleteFood listings food_id = .success "Food listing deleted." t →
      ∀ r ∈ t, 0 ≤ r.Quantity) ∧
    (∀ (providers : List Provider) (flt : Filters),
      ∀ row ∈ filteredBrowse listings providers flt, 0 ≤ row.Quantity) := by
  refine ⟨?_, ?_, ?_, ?_⟩
  · intro providers nextFoodId provider_id f_name f_exp f_loc fty fme f_qty t
      hq hsucc r hr
    rw [addFood] at hsucc
    split at hsucc
    · cases hsucc
      rw [List.mem_append] at hr
      rcases hr with h | h
      · exact hinv r h
      · rw [List.mem_singleton] at h
        rw [h]
        show (0 : Int) ≤ f_qty
        omega
    · cases hsucc
  · intro food_id new_qty t hq hsucc r hr
    rw [updateFoodQuantity] at hsucc
    cases hsucc
    rw [List.mem_map] at hr
    obtain ⟨s, hs, rfl⟩ := hr
    by_cases h : (s.Food_ID == food_id) = true <;> simp [h]
    · exact hq
    · exact hinv s hs
  · intro food_id t hsucc r hr
    rw [deleteFood] at hsucc
    cases hsucc
    rw [List.mem_filter] at hr
    exact hinv r hr.1
  · intro providers flt row hrow
    rw [mem_filteredBrowse] at hrow
    obtain ⟨fp, hmem, _, rfl⟩ := hrow
    rw [mem_joinFP] at hmem
    exact hinv fp.1 hmem.1

/-!  ## C10  -/

theorem browse_pipeline_ignores_location (g : FoodListing → String)
    (listings : List FoodListing) (providers : List Provider) (flt : Filters) :
    (((joinFP (listings.map fun F => { F with Location := g F }) providers).filter
        fun fp => wherePred flt fp.1 fp.2).map fun fp => selectRow fp.1 fp.2)
      = (((joinFP listings providers).filter fun fp => wherePred flt fp.1 fp.2).map
          fun fp => selectRow fp.1 fp.2) := by
  induction listings with
  | nil => rfl
  | cons F rest ih =>
    simp only [List.map_cons, joinFP, List.flatMap_cons, List.filter_append,
      List.map_append] at ih ⊢
    rw [ih]
    congr 1
    rw [List.filter_map, List.filter_map, List.map_map, List.map_map]
    rfl

/-- C10: in every filtered browse row the `Location` column is the
joined provider's `City` (and `Provider_Type` the provider's `Type`),
the city facet filters on `Providers.City`, and the
`Food_Listings.Location` field is never read: rewriting it arbitrarily
on every listing leaves the whole filtered browse result unchanged. -/
theorem c10_location_is_provider_city (listings : List FoodListing)
    (providers : List Provider) (flt : Filters) :
    (∀ row ∈ filteredBrowse listings providers flt,
      ∃ P ∈ providers, P.Provider_ID = row.Provider_ID ∧
        row.Location = P.City ∧ row.Provider_Type = P.«Type») ∧
    (∀ g : FoodListing → String,
      filteredBrowse (listings.map fun F => { F with Location := g F }) providers flt
        = filteredBrowse listings providers flt) := by
  constructor
  · intro row hrow
    rw [mem_filteredBrowse] at hrow
    obtain ⟨fp, hmem, _, rfl⟩ := hrow
    rw [mem_joinFP] at hmem
    exact ⟨fp.2, hmem.2.1, hmem.2.2, rfl, rfl⟩
  · intro g
    unfold filteredBrowse
    rw [browse_pipeline_ignores_location]

/-!  ## C9  -/

/-- C9 counterexample: a claim whose `Status` is the lowercase string
`"completed"`, joined to an existing listing and provider, is not
counted by report 9 (`WHERE C.Status = 'Completed'` under SQLite's
case-sensitive text equality), so the report returns no row at all —
neither a single row nor a count including this claim. -/
theorem c9_counterexample :
    (⟨1, 1, 1, "completed"⟩ : ClaimRow).Status = "completed" ∧
    q9 [⟨1, 1, 1, "completed"⟩]
        [{ Food_ID := 1, Food_Name := "Bread", Quantity := 5,
           Expiry_Date := "2026-01-01", Provider_ID := 7,
           Provider_Type := "Restaurant", Location := "CityA",
           Food_Type := "Vegetarian", Meal_Type := "Lunch" }]
        [{ Provider_ID := 7, Name := "Alice", «Type» := "Restaurant",
           Address := "2 High St", City := "CityA", Contact := "555-0101" }]
      = none := by
  exact ⟨rfl, by decide⟩

/-- C9 amended: report 9 counts exactly the joined claims whose `Status`
is the exact string `"Completed"` (case-sensitive) and returns at most
one row; when no such joined claim exists it returns no row at all, and
when at least one exists it returns exactly one row, which is a group
row of maximal `Successful_Claims` among all provider groups. -/
theorem c9_provider_most_completed (claims : List ClaimRow)
    (listings : List FoodListing) (providers : List Provider) :
    (∀ r ∈ q9rows claims listings providers, r.1.Status = "Completed") ∧
    (q9rows claims listings providers = [] → q9 claims listings providers = none) ∧
    (q9rows claims listings providers ≠ [] →
      ∃ row : Q9Row, q9 claims listings providers = some row ∧
        row ∈ q9groups claims listings providers ∧
        ∀ gr ∈ q9groups claims listings providers,
          gr.Successful_Claims ≤ row.Successful_Claims) := by
  refine ⟨?_, ?_, ?_⟩
  · intro r hr
    rw [q9rows, List.mem_filter] at hr
    exact beq_iff_eq.mp hr.2
  · intro hempty
    rw [q9, q9groups, hempty]
    rfl
  · intro hne
    have hgne : q9groups claims listings providers ≠ [] := by
      rw [q9groups]
      intro h
      rw [List.map_eq_nil_iff, List.dedup_eq_nil, List.map_eq_nil_iff] at h
      exact hne h
    have hperm := List.perm_insertionSort q9ge (q9groups claims listings providers)
    have hsorted := List.sorted_insertionSort q9ge (q9groups claims listings providers)
    cases hs : List.insertionSort q9ge (q9groups claims listings providers) with
    | nil =>
      rw [hs] at hperm
      exact absurd hperm.symm.eq_nil hgne
    | cons row tl =>
      rw [hs] at hperm hsorted
      refine ⟨row, ?_, ?_, ?_⟩
      · rw [q9, hs]
        rfl
      · exact hperm.mem_iff.mp (List.mem_cons_self row tl)
      · intro gr hgr
        have : gr ∈ row :: tl := hperm.mem_iff.mpr hgr
        rcases List.mem_cons.mp this with h | h
        · rw [h]
        · exact List.rel_of_sorted_cons hsorted gr h

/-!  ## C8  -/

theorem abs_round_div100_sub (x : ℚ) :
    |((round x : ℤ) : ℚ) / 100 - x / 100| ≤ 1 / 200 := by
  rw [div_sub_div_same, abs_div]
  have h := abs_sub_round (α := ℚ) x
  rw [abs_sub_comm] at h
  rw [abs_of_pos (show (0 : ℚ) < 100 by norm_num)]
  calc |((round x : ℤ) : ℚ) - x| / 100 ≤ (1 / 2) / 100 :=
        (div_le_div_iff_of_pos_right (by norm_num)).mpr h
    _ = 1 / 200 := by norm_num

theorem round_div100_sum_bound (L : List ℚ) :
    |(L.map fun x => ((round x : ℤ) : ℚ) / 100).sum - (L.map fun x => x / 100).sum|
      ≤ L.length * (1 / 200) := by
  induction L with
  | nil => simp
  | cons x L ih =>
    simp only [List.map_cons, List.sum_cons, List.length_cons]
    have hsplit : ((round x : ℤ) : ℚ) / 100 + (L.map fun x => ((round x : ℤ) : ℚ) / 100).sum
        - (x / 100 + (L.map fun x => x / 100).sum)
        = (((round x : ℤ) : ℚ) / 100 - x / 100)
          + ((L.map fun x => ((round x : ℤ) : ℚ) / 100).sum - (L.map fun x => x / 100).sum) := by
      ring
    rw [hsplit]
    calc |(((round x : ℤ) : ℚ) / 100 - x / 100)
          + ((L.map fun x => ((round x : ℤ) : ℚ) / 100).sum - (L.map fun x => x / 100).sum)|
        ≤ |((round x : ℤ) : ℚ) / 100 - x / 100|
          + |(L.map fun x => ((round x : ℤ) : ℚ) / 100).sum - (L.map fun x => x / 100).sum| :=
        abs_add _ _
      _ ≤ 1 / 200 + L.length * (1 / 200) := by
        exact add_le_add (abs_round_div100_sub x) ih
      _ = (L.length + 1) * (1 / 200) := by ring
      _ = ((L.length + 1 : ℕ) : ℚ) * (1 / 200) := by push_cast; ring

theorem count_statuses_eq_countP (claims : List ClaimRow) (s : String) :
    List.count s (claims.map fun c => c.Status)
      = claims.countP fun c => c.Status == s := by
  rw [List.count, List.countP_map]
  rfl

theorem exact_pct_sum (claims : List ClaimRow) (hne : claims ≠ []) :
    ((claims.map fun c => c.Status).dedup.map fun s =>
        ((10000 : ℚ) * (claims.countP fun c => c.Status == s) / claims.length) / 100).sum
      = 100 := by
  have hT : (claims.length : ℚ) ≠ 0 := by
    simp only [ne_eq, Nat.cast_eq_zero, List.length_eq_zero]
    exact hne
  have hterm : ∀ s,
      ((10000 : ℚ) * (claims.countP fun c => c.Status == s) / claims.length) / 100
        = ((claims.countP fun c => c.Status == s : ℕ) : ℚ) * (100 / claims.length) := by
    intro s
    ring
  rw [List.map_congr_left fun s _ => hterm s]
  have hfac : ((claims.map fun c => c.Status).dedup.map fun s =>
      ((claims.countP fun c => c.Status == s : ℕ) : ℚ) * (100 / claims.length)).sum
      = ((claims.map fun c => c.Status).dedup.map fun s =>
          ((claims.countP fun c => c.Status == s : ℕ) : ℚ)).sum * (100 / claims.length) :=
    List.sum_map_mul_right _ _ _
  rw [hfac]
  have hcastmap : ((claims.map fun c => c.Status).dedup.map fun s =>
      ((claims.countP fun c => c.Status == s : ℕ) : ℚ))
      = ((claims.map fun c => c.Status).dedup.map fun s =>
          (claims.countP fun c => c.Status == s : ℕ)).map Nat.cast := by
    rw [List.map_map]
    rfl
  rw [hcastmap, ← Nat.cast_list_sum]
  have hsum : ((claims.map fun c => c.Status).dedup.map fun s =>
      (claims.countP fun c => c.Status == s : ℕ)).sum = claims.length := by
    have h := List.sum_map_count_dedup_eq_length (claims.map fun c => c.Status)
    rw [List.map_congr_left fun s _ => (count_statuses_eq_countP claims s).symm]
    rw [h, List.length_map]
  rw [hsum]
  field_simp

/-- Seven claims with seven distinct statuses: each percentage rounds
`100/7 ≈ 14.2857` up to `14.29`, so the report's percentages sum to
`100.03`. -/
def sevenStatusClaims : List ClaimRow :=
  [⟨1, 1, 1, "pending"⟩, ⟨2, 1, 1, "completed"⟩, ⟨3, 1, 1, "cancelled"⟩,
   ⟨4, 1, 1, "expired"⟩, ⟨5, 1, 1, "open"⟩, ⟨6, 1, 1, "held"⟩, ⟨7, 1, 1, "lost"⟩]

theorem q10_seven_sum :
    ((q10 sevenStatusClaims).map fun r => r.Percentage).sum = 10003 / 100 := by
  have hperm := List.perm_insertionSort q10ge
    ((sevenStatusClaims.map fun c => c.Status).dedup.map fun s =>
      { Status := s,
        Percentage := round2pct (sevenStatusClaims.countP fun c => c.Status == s)
          sevenStatusClaims.length : Q10Row })
  rw [q10, (hperm.map _).sum_eq]
  have h1 : ((sevenStatusClaims.map fun c => c.Status).dedup.map fun s =>
      { Status := s,
        Percentage := round2pct (sevenStatusClaims.countP fun c => c.Status == s)
          sevenStatusClaims.length : Q10Row })
      = [⟨"pending", round2pct 1 7⟩, ⟨"completed", round2pct 1 7⟩,
         ⟨"cancelled", round2pct 1 7⟩, ⟨"expired", round2pct 1 7⟩,
         ⟨"open", round2pct 1 7⟩, ⟨"held", round2pct 1 7⟩,
         ⟨"lost", round2pct 1 7⟩] := rfl
  rw [h1]
  simp only [List.map_cons, List.map_nil, List.sum_cons, List.sum_nil]
  norm_num [round2pct, round_eq]

/-- C8 counterexample: on a non-empty `Claims` table with seven claims
in seven distinct statuses, the report's percentages sum to `100.03`,
outside the claimed `±0.02` tolerance. -/
theorem c8_distribution_counterexample :
    sevenStatusClaims ≠ [] ∧
    ((q10 sevenStatusClaims).map fun r => r.Percentage).sum = 10003 / 100 ∧
    ¬ |((q10 sevenStatusClaims).map fun r => r.Percentage).sum - 100| ≤ 2 / 100 := by
  refine ⟨by decide, q10_seven_sum, ?_⟩
  rw [q10_seven_sum]
  have h : (10003 : ℚ) / 100 - 100 = 3 / 100 := by norm_num
  rw [h, abs_of_nonneg (by norm_num)]
  norm_num

/-- C8 amended: for a non-empty `Claims` table, report 10 returns one
row per distinct `Status`, its `Percentage` is
`ROUND(100 * count / total, 2)` for that status, and the percentages sum
to `100` within `±0.005·N` for `N` returned rows (the claimed fixed
`±0.02` holds only for `N ≤ 4`; the counterexample above exceeds it with
`N = 7`). -/
theorem c8_claim_status_distribution (claims : List ClaimRow) (hne : claims ≠ []) :
    ((q10 claims).map fun r => r.Status).Perm (claims.map fun c => c.Status).dedup ∧
    (∀ row ∈ q10 claims,
      row.Percentage
        = round2pct (claims.countP fun c => c.Status == row.Status) claims.length) ∧
    |((q10 claims).map fun r => r.Percentage).sum - 100|
      ≤ ((q10 claims).length : ℚ) * (1 / 200) := by
  have hperm := List.perm_insertionSort q10ge
    ((claims.map fun c => c.Status).dedup.map fun s =>
      { Status := s,
        Percentage := round2pct (claims.countP fun c => c.Status == s)
          claims.length : Q10Row })
  refine ⟨?_, ?_, ?_⟩
  · rw [q10]
    refine (hperm.map _).trans ?_
    rw [List.map_map]
    exact (List.map_id _ ▸ List.Perm.refl _)
  · intro row hrow
    rw [q10, hperm.mem_iff, List.mem_map] at hrow
    obtain ⟨s, _, rfl⟩ := hrow
    rfl
  · have hlen : (q10 claims).length = (claims.map fun c => c.Status).dedup.length := by
      rw [q10, hperm.length_eq, List.length_map]
    have hsum : ((q10 claims).map fun r => r.Percentage).sum
        = (((claims.map fun c => c.Status).dedup.map fun s =>
            (10000 : ℚ) * (claims.countP fun c => c.Status == s) / claims.length).map
              fun x => ((round x : ℤ) : ℚ) / 100).sum := by
      rw [q10, (hperm.map _).sum_eq, List.map_map, List.map_map]
      rfl
    have hexact : (((claims.map fun c => c.Status).dedup.map fun s =>
        (10000 : ℚ) * (claims.countP fun c => c.Status == s) / claims.length).map
          fun x => x / 100).sum = 100 := by
      rw [List.map_map]
      exact exact_pct_sum claims hne
    have hbound := round_div100_sum_bound
      ((claims.map fun c => c.Status).dedup.map fun s =>
        (10000 : ℚ) * (claims.countP fun c => c.Status == s) / claims.length)
    rw [hexact, List.length_map] at hbound
    rw [hsum, hlen]
    exact hbound

/-!  ## Concrete witnesses  -/

/-- A sample `Providers` row used to instantiate the theorems. -/
def sampleProvider : Provider :=
  { Provider_ID := 7, Name := "Alice", «Type» := "Restaurant",
    Address := "2 High St", City := "CityA", Contact := "555-0101" }

/-- A sample `Food_Listings` row belonging to `sampleProvider`. -/
def sampleListing : FoodListing :=
  { Food_ID := 1, Food_Name := "Bread", Quantity := 5,
    Expiry_Date := "2026-01-01", Provider_ID := 7,
    Provider_Type := "Restaurant", Location := "CityA",
    Food_Type := "Vegetarian", Meal_Type := "Lunch" }

/-- C1 witness: on a concrete database and a concrete city selection,
the row returned by the filtered browse does satisfy the city facet. -/
theorem c1_filter_builder_witness :
    selectRow sampleListing sampleProvider
        ∈ filteredBrowse [sampleListing] [sampleProvider] ⟨["CityA"], [], [], []⟩ ∧
    (selectRow sampleListing sampleProvider).Location ∈ (["CityA"] : List String) :=
  have hmem : selectRow sampleListing sampleProvider
      ∈ filteredBrowse [sampleListing] [sampleProvider] ⟨["CityA"], [], [], []⟩ := by decide
  ⟨hmem,
    ((c1_filter_builder_conjunctive ⟨["CityA"], [], [], []⟩ [sampleListing]
        [sampleProvider]).2.2.2.2.2.2 _ hmem).1 (by decide)⟩

/-- C3 witness: updating the quantity of the existing `Food_ID = 1` to
`5` is read back as `5`. -/
theorem c3_update_quantity_witness :
    ∃ t, updateFoodQuantity [sampleListing] 1 5 = .success "Quantity updated." t ∧
      ∃ r' ∈ t, r'.Food_ID = 1 ∧ r'.Quantity = 5 := by
  obtain ⟨t, heq, _, hread, _⟩ := c3_update_quantity [sampleListing] 1 5
  exact ⟨t, heq, hread ⟨sampleListing, by decide, by decide⟩⟩

/-- C4 witness: deleting the unique row with `Food_ID = 1` from a
one-row table leaves zero rows. -/
theorem c4_delete_food_witness :
    ∃ t, deleteFood [sampleListing] 1 = .success "Food listing deleted." t ∧
      t.length + 1 = 1 := by
  obtain ⟨t, heq, _, _, hcount, _⟩ := c4_delete_food [sampleListing] 1
  exact ⟨t, heq, by rw [hcount (by decide)]; decide⟩

/-- C5 witness: adding a listing for the existing provider with the
non-zero id `7` appends one row whose `Provider_Type` is that
provider's current type. -/
theorem c5_add_food_witness :
    ∃ r, addFood [] [sampleProvider] 1 (some 7) "Bread" 3 "2026-01-01" "CityA"
          "Vegetarian" "Lunch" = .success "Food listing added." ([] ++ [r]) ∧
      r.Provider_Type = "Restaurant" := by
  obtain ⟨_, _, r, heq, _, htype, _⟩ :=
    c5_add_food_amended.1 [] [sampleProvider] 1 7 sampleProvider
      "Bread" "2026-01-01" "CityA" "Vegetarian" "Lunch" 3
      (by decide) (by decide) (by decide) (by decide)
  exact ⟨r, heq, htype⟩

/-- C6 witness: adding a provider with the three required fields
non-empty inserts exactly one row. -/
theorem c6_add_provider_witness :
    ∃ r, addProvider [] 1 "Alice" "Restaurant" "" "CityA" ""
        = .success "Provider added." ([] ++ [r]) ∧ ([] ++ [r]).length = 0 + 1 :=
  match (c6_add_provider [] 1 "Alice" "Restaurant" "" "CityA" "").2
      (by decide) (by decide) (by decide) with
  | ⟨r, heq, hlen, _⟩ => ⟨r, heq, hlen⟩

/-- C7 witness: after updating the sample table's quantity to `5`, every
row's quantity is still non-negative. -/
theorem c7_quantity_invariant_witness :
    (0 : Int) ≤ ({ sampleListing with Quantity := 5 } : FoodListing).Quantity :=
  (c7_quantity_invariant [sampleListing] (by decide)).2.1 1 5
    [{ sampleListing with Quantity := 5 }] (by decide) (by decide)
    { sampleListing with Quantity := 5 } (by decide)

/-- C8 witness: on a one-claim table with status `"Completed"`, the
report returns exactly the one status row. -/
theorem c8_distribution_witness :
    ((q10 [⟨1, 1, 1, "Completed"⟩]).map fun r => r.Status).Perm ["Completed"] := by
  have h := (c8_claim_status_distribution [⟨1, 1, 1, "Completed"⟩] (by decide)).1
  have h2 : ((([⟨1, 1, 1, "Completed"⟩] : List ClaimRow).map fun c => c.Status).dedup)
      = ["Completed"] := rfl
  rw [h2] at h
  exact h

/-- C9 witness: with one `"Completed"` claim joined to the sample
listing and provider, the report returns a (maximal) row. -/
theorem c9_provider_most_completed_witness :
    ∃ row : Q9Row, q9 [⟨1, 1, 1, "Completed"⟩] [sampleListing] [sampleProvider]
        = some row ∧
      row ∈ q9groups [⟨1, 1, 1, "Completed"⟩] [sampleListing] [sampleProvider] := by
  obtain ⟨row, hq, hmem, _⟩ :=
    (c9_provider_most_completed [⟨1, 1, 1, "Completed"⟩] [sampleListing]
      [sampleProvider]).2.2 (by decide)
  exact ⟨row, hq, hmem⟩

/-- C10 witness: rewriting the sample listing's `Location` field leaves
the browse result unchanged. -/
theorem c10_location_witness :
    filteredBrowse [({ sampleListing with Location := "Elsewhere" } : FoodListing)]
        [sampleProvider] ⟨[], [], [], []⟩
      = filteredBrowse [sampleListing] [sampleProvider] ⟨[], [], [], []⟩ :=
  (c10_location_is_provider_city [sampleListing] [sampleProvider]
    ⟨[], [], [], []⟩).2 fun _ => "Elsewhere"

end Food
